import Mathlib

/-!
Shallow embedding of `src/main_train.py` from the `enkorde` repository.

The script is a training-run driver.  Its behaviour is modelled as a pure
function from run inputs (parsed CLI arguments, the fetched configuration
entry, the fetched tokenizer, CUDA availability, and the trainer outcome
`current_epoch` after `trainer.fit`) to a trace of observable effects
(events) together with an optional uncaught Python exception.

Configurations are Python dicts, modelled as association lists of
string keys and dynamically typed values, with `dict.update` semantics.
-/

/-- A dynamically typed Python config value (the value types that occur in
the script: strings, ints and bools). -/
inductive Value where
  | vStr (s : String)
  | vInt (n : Int)
  | vBool (b : Bool)
  deriving DecidableEq

/-- Python truthiness of a value, as used by `not config[...]`. -/
def Value.truthy : Value → Bool
  | .vStr s => s ≠ ""
  | .vInt n => n ≠ 0
  | .vBool b => b

/-- Coercion of a value to a Python int where Python would accept it in
arithmetic: ints are ints, and bools are ints (`True == 1`). -/
def Value.asInt : Value → Option Int
  | .vStr _ => none
  | .vInt n => some n
  | .vBool b => some (if b then 1 else 0)

/-- Python `str(v)`, as produced inside an f-string. -/
def Value.pyStr : Value → String
  | .vStr s => s
  | .vInt n => toString n
  | .vBool b => if b then "True" else "False"

/-- A Python dict of config entries: an association list from keys to
values (Python dicts have no duplicate keys; lookup returns the first
binding). -/
def Config : Type := List (String × Value)

instance : DecidableEq Config := by
  unfold Config
  infer_instance

/-- Dict lookup `config[k]`: the value of the first binding of `k`. -/
def Config.find : Config → String → Option Value
  | [], _ => none
  | (k, v) :: rest, key => if k = key then some v else Config.find rest key

/-- Dict item assignment `config[k] = v`: replace the binding of `k` if it
exists, otherwise append it (insertion order). -/
def Config.setKey : Config → String → Value → Config
  | [], key, v => [(key, v)]
  | (k, w) :: rest, key, v =>
      if k = key then (key, v) :: rest else (k, w) :: Config.setKey rest key v

/-- Python `c.update(d)`: assign every binding of `d` into `c`, in order. -/
def Config.updateWith (c : Config) (d : Config) : Config :=
  d.foldl (fun acc kv => Config.setKey acc kv.1 kv.2) c

/-- The parsed CLI arguments of `main` (`argparse` namespace): one
positional argument `entity` and the seven optional arguments with their
`argparse` types. -/
structure Args where
  entity : String
  model : String
  ver : String
  num_workers : Int
  log_every_n_steps : Int
  fast_dev_run : Bool
  overfit_batches : Int
  check_val_every_n_epoch : Int
  deriving DecidableEq

/-- Python `vars(args)`: the dict of the eight parsed CLI arguments, in
parser registration order. -/
def varsArgs (a : Args) : Config :=
  [("entity", .vStr a.entity),
   ("model", .vStr a.model),
   ("ver", .vStr a.ver),
   ("num_workers", .vInt a.num_workers),
   ("log_every_n_steps", .vInt a.log_every_n_steps),
   ("fast_dev_run", .vBool a.fast_dev_run),
   ("overfit_batches", .vInt a.overfit_batches),
   ("check_val_every_n_epoch", .vInt a.check_val_every_n_epoch)]

/-- The tokenizer returned by `fetch_tokenizer`: the two pieces of data the
script reads from it (`get_vocab_size()` and `pad_token_id`). -/
structure Tokenizer where
  vocab_size : Nat
  pad_token_id : Nat
  deriving DecidableEq

/-- Modelled from the spec: the class attribute `name` of the
`TransformerTorch` model class, which lives in `enkorde/models.py`, a file
not under `src/`; the spec describes the dispatch as comparing
`config['model']` against it.  The CLI default `--model transformer_torch`
fixes its value. -/
def TransformerTorch.name : String := "transformer_torch"

/-- Modelled from the spec: the class attribute `name` of the
`TransformerScratch` model class (defined outside `src/`), a string
distinct from `TransformerTorch.name`. -/
def TransformerScratch.name : String := "transformer_scratch"

/-- Modelled from the spec: the class attribute `name` of
`Kor2EngDataModule` (defined in `enkorde/datamodules.py`, outside
`src/`). -/
def Kor2EngDataModule.name : String := "kor2eng"

/-- Modelled from the spec: the class attribute `name` of
`Kor2EngSmallDataModule` (defined outside `src/`), distinct from
`Kor2EngDataModule.name`. -/
def Kor2EngSmallDataModule.name : String := "kor2eng_small"

/-- Modelled from the spec: `ROOT_DIR` from `enkorde/paths.py` (outside
`src/`), an opaque directory path; only its use as a path prefix matters. -/
def ROOT_DIR : String := "enkorde_root"

/-- The checkpoint path `os.path.join(ROOT_DIR, "transformer.ckpt")`. -/
def ckpt_path : String := ROOT_DIR ++ "/" ++ "transformer.ckpt"

/-- The argument tuple of the `TransformerTorch(...)` constructor call, in
positional order. -/
structure TorchInit where
  hidden_size : Value
  ffn_size : Value
  vocab_size : Nat
  max_length : Value
  pad_token_id : Nat
  heads : Value
  depth : Value
  dropout : Value
  lr : Value
  device : String
  deriving DecidableEq

/-- The argument tuple of the `TransformerScratch(...)` constructor call:
the same arguments in the same order, with no device field. -/
structure ScratchInit where
  hidden_size : Value
  ffn_size : Value
  vocab_size : Nat
  max_length : Value
  pad_token_id : Nat
  heads : Value
  depth : Value
  dropout : Value
  lr : Value
  deriving DecidableEq

/-- The model object bound to `transformer` by the dispatch. -/
inductive Model where
  | torch (ti : TorchInit)
  | scratch (si : ScratchInit)
  deriving DecidableEq

/-- The data module object bound to `datamodule` by the dispatch; each
constructor records the `(config, tokenizer)` pair it was called with. -/
inductive DataModule where
  | kor2eng (c : Config) (t : Tokenizer)
  | kor2engSmall (c : Config) (t : Tokenizer)
  deriving DecidableEq

/-- The Python exceptions the script can raise. -/
inductive Err where
  | keyError (k : String)
  | valueError (msg : String)
  | typeError (msg : String)
  deriving DecidableEq

/-- The observable effects of one run of the script, in program order. -/
inductive Event where
  | wandbInit (entity : Value)
  | fetchTokenizerByName (entity tokName : Value)
  | constructModel (m : Model)
  | constructDataModule (d : DataModule)
  | trainerFit (m : Model) (d : DataModule)
  | saveCheckpoint (path : String)
  | createArtifact (artifactName : Value) (ty : String) (metadata : Config)
  | addFile (path : String)
  | logArtifactWithAliases (aliases : List Value)
  | removeFile (path : String)
  deriving DecidableEq

deriving instance DecidableEq for Except

/-- Dict indexing `config[k]` as an expression: `KeyError` when absent. -/
def getV (config : Config) (k : String) : Except Err Value :=
  match config.find k with
  | some v => .ok v
  | none => .error (.keyError k)

/-- Lines 31-60 of `main_train.py`: the `if/elif/else` choosing the
transformer implementation from `config['model']`.  The torch branch
computes a device from CUDA availability and passes it as the last
constructor argument; the scratch branch passes the same arguments with no
device; any other value of `config['model']` raises `ValueError`. -/
def modelDispatch (config : Config) (tokenizer : Tokenizer)
    (cudaAvailable : Bool) : Except Err Model := do
  let mv ← getV config "model"
  if mv = Value.vStr TransformerTorch.name then
    let device := if cudaAvailable then "cuda" else "cpu"
    let hs ← getV config "hidden_size"
    let fs ← getV config "ffn_size"
    let ml ← getV config "max_length"
    let hd ← getV config "heads"
    let dp ← getV config "depth"
    let dr ← getV config "dropout"
    let lr ← getV config "lr"
    pure (.torch ⟨hs, fs, tokenizer.vocab_size, ml, tokenizer.pad_token_id,
                  hd, dp, dr, lr, device⟩)
  else if mv = Value.vStr TransformerScratch.name then
    let hs ← getV config "hidden_size"
    let fs ← getV config "ffn_size"
    let ml ← getV config "max_length"
    let hd ← getV config "heads"
    let dp ← getV config "depth"
    let dr ← getV config "dropout"
    let lr ← getV config "lr"
    pure (.scratch ⟨hs, fs, tokenizer.vocab_size, ml, tokenizer.pad_token_id,
                    hd, dp, dr, lr⟩)
  else
    .error (.valueError ("Invalid model: " ++ mv.pyStr))

/-- Lines 62-67 of `main_train.py`: the `if/elif/else` choosing the data
module from `config['data']`; the chosen class is constructed with the
merged config and the fetched tokenizer, and any other value raises
`ValueError`. -/
def dataDispatch (config : Config) (tokenizer : Tokenizer) :
    Except Err DataModule := do
  let dv ← getV config "data"
  if dv = Value.vStr Kor2EngDataModule.name then
    pure (.kor2eng config tokenizer)
  else if dv = Value.vStr Kor2EngSmallDataModule.name then
    pure (.kor2engSmall config tokenizer)
  else
    .error (.valueError ("Invalid data: " ++ dv.pyStr))

/-- Line 83 of `main_train.py`: the run-completion gate
`not config['fast_dev_run'] and trainer.current_epoch == config['max_epochs'] - 1`,
with Python short-circuit evaluation (the subtraction is evaluated only
when `config['fast_dev_run']` is falsy, and raises `TypeError` when
`config['max_epochs']` is not an int). -/
def uploadGate (config : Config) (currentEpoch : Int) : Except Err Bool := do
  let fdv ← getV config "fast_dev_run"
  if fdv.truthy then
    pure false
  else
    let me ← getV config "max_epochs"
    match me.asInt with
    | some n => pure (decide (currentEpoch = n - 1))
    | none => .error (.typeError "unsupported operand type for -")

/-- The inputs that determine one run of `main`: the parsed CLI arguments,
the fetched config entry `fetch_config()['train'][args.model][args.ver]`,
the tokenizer returned by `fetch_tokenizer`, whether
`torch.cuda.is_available()`, and the value of `trainer.current_epoch`
after `trainer.fit` returns. -/
structure Inputs where
  args : Args
  fetched : Config
  tok : Tokenizer
  cudaAvailable : Bool
  currentEpoch : Int
  deriving DecidableEq

/-- Line 26 of `main_train.py`: `config.update(vars(args))` applied to the
fetched config entry. -/
def mergedConfig (i : Inputs) : Config :=
  Config.updateWith i.fetched (varsArgs i.args)

/-- The body of `main` after argument parsing and config merging
(lines 27-89 of `main_train.py`), as a trace semantics: the list of
effects performed, in order, and the exception that aborted the run, if
any.  An exception leaves the effects already performed in the trace and
prevents all later ones. -/
def mainTrain (i : Inputs) : List Event × Option Err :=
  let config := mergedConfig i
  match getV config "entity" with
  | .error e => ([], some e)
  | .ok entity =>
  match getV config "tokenizer" with
  | .error e => ([.wandbInit entity], some e)
  | .ok tokName =>
  let tr0 := [Event.wandbInit entity, Event.fetchTokenizerByName entity tokName]
  match modelDispatch config i.tok i.cudaAvailable with
  | .error e => (tr0, some e)
  | .ok m =>
  let tr1 := tr0 ++ [Event.constructModel m]
  match dataDispatch config i.tok with
  | .error e => (tr1, some e)
  | .ok d =>
  let tr2 := tr1 ++ [Event.constructDataModule d]
  match getV config "fast_dev_run" with
  | .error e => (tr2, some e)
  | .ok _ =>
  match getV config "check_val_every_n_epoch" with
  | .error e => (tr2, some e)
  | .ok _ =>
  match getV config "overfit_batches" with
  | .error e => (tr2, some e)
  | .ok _ =>
  match getV config "max_epochs" with
  | .error e => (tr2, some e)
  | .ok _ =>
  match getV config "log_every_n_steps" with
  | .error e => (tr2, some e)
  | .ok _ =>
  let tr3 := tr2 ++ [Event.trainerFit m d]
  match uploadGate config i.currentEpoch with
  | .error e => (tr3, some e)
  | .ok false => (tr3, none)
  | .ok true =>
  let tr4 := tr3 ++ [Event.saveCheckpoint ckpt_path]
  match getV config "model" with
  | .error e => (tr4, some e)
  | .ok mv =>
  let tr5 := tr4 ++ [Event.createArtifact mv "model" config, Event.addFile ckpt_path]
  match getV config "ver" with
  | .error e => (tr5, some e)
  | .ok vv =>
  (tr5 ++ [Event.logArtifactWithAliases [Value.vStr "latest", vv],
           Event.removeFile ckpt_path], none)


/-- The constructor-argument projections the claims inspect: the vocab size
argument a model was built with. -/
def Model.vocabSizeArg : Model → Nat
  | .torch ti => ti.vocab_size
  | .scratch si => si.vocab_size

/-- The pad-token-id argument a model was built with. -/
def Model.padArg : Model → Nat
  | .torch ti => ti.pad_token_id
  | .scratch si => si.pad_token_id

/-- The tokenizer a data module was constructed with. -/
def DataModule.tokenizerArg : DataModule → Tokenizer
  | .kor2eng _ t => t
  | .kor2engSmall _ t => t

/-- The config a data module was constructed with. -/
def DataModule.configArg : DataModule → Config
  | .kor2eng c _ => c
  | .kor2engSmall c _ => c

/-- Whether an event belongs to the save/upload/cleanup sequence of
lines 84-89 (the only code that writes, uploads or removes a checkpoint). -/
def Event.isUploadEvent : Event → Bool
  | .saveCheckpoint _ => true
  | .createArtifact _ _ _ => true
  | .addFile _ => true
  | .logArtifactWithAliases _ => true
  | .removeFile _ => true
  | _ => false

/-- The five events every run performs before the upload gate, once the
dispatches succeed: wandb init, tokenizer fetch, the two constructions,
and `trainer.fit`. -/
def preTrace (entity tokName : Value) (m : Model) (d : DataModule) : List Event :=
  [.wandbInit entity, .fetchTokenizerByName entity tokName,
   .constructModel m, .constructDataModule d, .trainerFit m d]

/-- The five events of the save/upload/cleanup sequence (lines 84-89). -/
def uploadTailEvents (mv vv : Value) (config : Config) : List Event :=
  [.saveCheckpoint ckpt_path,
   .createArtifact mv "model" config,
   .addFile ckpt_path,
   .logArtifactWithAliases [.vStr "latest", vv],
   .removeFile ckpt_path]


/-- A concrete example tokenizer, for witnesses. -/
def tokEx : Tokenizer := ⟨100, 0⟩

/-- A concrete fetched config entry, for witnesses: it also defines
`fast_dev_run`, so the CLI merge of that key is exercised. -/
def fetchedEx : Config :=
  [("tokenizer", .vStr "wp"),
   ("data", .vStr Kor2EngDataModule.name),
   ("max_epochs", .vInt 3),
   ("hidden_size", .vInt 8),
   ("ffn_size", .vInt 16),
   ("max_length", .vInt 10),
   ("heads", .vInt 2),
   ("depth", .vInt 1),
   ("dropout", .vInt 0),
   ("lr", .vInt 1),
   ("fast_dev_run", .vBool true)]

/-- Example CLI arguments selecting the torch model, with
`fast_dev_run = false`. -/
def argsEx : Args := ⟨"me", TransformerTorch.name, "overfit", 4, 1, false, 0, 1⟩

/-- An example run that reaches the upload sequence: `max_epochs = 3` and
`current_epoch = 2` after training. -/
def iEx : Inputs := ⟨argsEx, fetchedEx, tokEx, true, 2⟩

/-- A second run built from the same data as `iEx`. -/
def iEx2 : Inputs := ⟨argsEx, fetchedEx, tokEx, true, 2⟩

/-- Example CLI arguments with `--fast_dev_run`. -/
def argsFastEx : Args := ⟨"me", TransformerTorch.name, "overfit", 4, 1, true, 0, 1⟩

/-- An example fast-dev run (the gate must not fire). -/
def iFastEx : Inputs := ⟨argsFastEx, fetchedEx, tokEx, true, 2⟩

/-- Example CLI arguments with an unrecognised model name. -/
def argsBadEx : Args := ⟨"me", "no_such_model", "overfit", 4, 1, false, 0, 1⟩

/-- An example run whose model dispatch raises `ValueError`. -/
def iBadEx : Inputs := ⟨argsBadEx, fetchedEx, tokEx, true, 2⟩

/-- A concrete config for exercising the dispatches directly. -/
def cDispatchEx : Config :=
  [("model", .vStr TransformerTorch.name),
   ("hidden_size", .vInt 8),
   ("ffn_size", .vInt 16),
   ("max_length", .vInt 10),
   ("heads", .vInt 2),
   ("depth", .vInt 1),
   ("dropout", .vInt 0),
   ("lr", .vInt 1),
   ("data", .vStr Kor2EngDataModule.name)]

/-! ### Dict semantics of `setKey`, `updateWith` and the merged config -/

instance : Membership (String × Value) Config := by
  unfold Config
  infer_instance

theorem find_setKey_self (c : Config) (k : String) (v : Value) :
    (c.setKey k v).find k = some v := by
  induction c with
  | nil => simp [Config.setKey, Config.find]
  | cons kv rest ih =>
    obtain ⟨k0, w⟩ := kv
    by_cases h : k0 = k
    · simp [Config.setKey, h, Config.find]
    · simp [Config.setKey, h, Config.find, ih]

theorem find_setKey_of_ne (c : Config) (k : String) (v : Value) (k' : String)
    (h : k' ≠ k) : (c.setKey k v).find k' = c.find k' := by
  have hne : k ≠ k' := fun hh => h hh.symm
  induction c with
  | nil => simp [Config.setKey, Config.find, hne]
  | cons kv rest ih =>
    obtain ⟨k0, w⟩ := kv
    by_cases h0 : k0 = k
    · subst h0
      simp [Config.setKey, Config.find, hne]
    · simp only [Config.setKey, if_neg h0]
      by_cases h1 : k0 = k'
      · simp [Config.find, h1]
      · simp [Config.find, h1, ih]

theorem updateWith_cons (c : Config) (k : String) (v : Value) (d : Config) :
    Config.updateWith c ((k, v) :: d) = Config.updateWith (c.setKey k v) d := rfl

theorem find_updateWith_of_not_mem (c d : Config) (k : String)
    (h : k ∉ d.map Prod.fst) : (c.updateWith d).find k = c.find k := by
  induction d generalizing c with
  | nil => rfl
  | cons kv rest ih =>
    obtain ⟨k0, v0⟩ := kv
    simp only [List.map_cons, List.mem_cons] at h
    push_neg at h
    rw [updateWith_cons, ih _ h.2, find_setKey_of_ne _ _ _ _ h.1]

theorem find_updateWith_of_mem (c d : Config) (k : String) (v : Value)
    (hnd : (d.map Prod.fst).Nodup) (hmem : (k, v) ∈ d) :
    (c.updateWith d).find k = some v := by
  induction d generalizing c with
  | nil => cases hmem
  | cons kv rest ih =>
    obtain ⟨k0, v0⟩ := kv
    simp only [List.map_cons, List.nodup_cons] at hnd
    rcases List.mem_cons.mp hmem with heq | hrest
    · have hk : k0 = k := (Prod.mk.inj heq.symm).1
      have hv : v0 = v := (Prod.mk.inj heq.symm).2
      subst hk
      subst hv
      rw [updateWith_cons, find_updateWith_of_not_mem _ _ _ hnd.1, find_setKey_self]
    · rw [updateWith_cons]
      exact ih _ hnd.2 hrest

theorem updateWith_nil (c : Config) : Config.updateWith c [] = c := rfl

/-- The set of keys that `vars(args)` contributes to the merge. -/
def cliKeys : List String :=
  ["entity", "model", "ver", "num_workers", "log_every_n_steps",
   "fast_dev_run", "overfit_batches", "check_val_every_n_epoch"]

theorem varsArgs_keys (a : Args) : (varsArgs a).map Prod.fst = cliKeys := rfl

theorem merged_find_entity (i : Inputs) :
    (mergedConfig i).find "entity" = some (.vStr i.args.entity) := by
  rw [mergedConfig, varsArgs]
  repeat rw [updateWith_cons]
  rw [updateWith_nil]
  repeat rw [find_setKey_of_ne _ _ _ _ (by decide)]
  rw [find_setKey_self]

theorem merged_find_model (i : Inputs) :
    (mergedConfig i).find "model" = some (.vStr i.args.model) := by
  rw [mergedConfig, varsArgs]
  repeat rw [updateWith_cons]
  rw [updateWith_nil]
  repeat rw [find_setKey_of_ne _ _ _ _ (by decide)]
  rw [find_setKey_self]

theorem merged_find_ver (i : Inputs) :
    (mergedConfig i).find "ver" = some (.vStr i.args.ver) := by
  rw [mergedConfig, varsArgs]
  repeat rw [updateWith_cons]
  rw [updateWith_nil]
  repeat rw [find_setKey_of_ne _ _ _ _ (by decide)]
  rw [find_setKey_self]

theorem merged_find_num_workers (i : Inputs) :
    (mergedConfig i).find "num_workers" = some (.vInt i.args.num_workers) := by
  rw [mergedConfig, varsArgs]
  repeat rw [updateWith_cons]
  rw [updateWith_nil]
  repeat rw [find_setKey_of_ne _ _ _ _ (by decide)]
  rw [find_setKey_self]

theorem merged_find_log_every_n_steps (i : Inputs) :
    (mergedConfig i).find "log_every_n_steps" = some (.vInt i.args.log_every_n_steps) := by
  rw [mergedConfig, varsArgs]
  repeat rw [updateWith_cons]
  rw [updateWith_nil]
  repeat rw [find_setKey_of_ne _ _ _ _ (by decide)]
  rw [find_setKey_self]

theorem merged_find_fast_dev_run (i : Inputs) :
    (mergedConfig i).find "fast_dev_run" = some (.vBool i.args.fast_dev_run) := by
  rw [mergedConfig, varsArgs]
  repeat rw [updateWith_cons]
  rw [updateWith_nil]
  repeat rw [find_setKey_of_ne _ _ _ _ (by decide)]
  rw [find_setKey_self]

theorem merged_find_overfit_batches (i : Inputs) :
    (mergedConfig i).find "overfit_batches" = some (.vInt i.args.overfit_batches) := by
  rw [mergedConfig, varsArgs]
  repeat rw [updateWith_cons]
  rw [updateWith_nil]
  repeat rw [find_setKey_of_ne _ _ _ _ (by decide)]
  rw [find_setKey_self]

theorem merged_find_check_val (i : Inputs) :
    (mergedConfig i).find "check_val_every_n_epoch"
      = some (.vInt i.args.check_val_every_n_epoch) := by
  rw [mergedConfig, varsArgs]
  repeat rw [updateWith_cons]
  rw [updateWith_nil]
  rw [find_setKey_self]

theorem merged_find_of_not_cli (i : Inputs) (k : String) (h : k ∉ cliKeys) :
    (mergedConfig i).find k = Config.find i.fetched k := by
  apply find_updateWith_of_not_mem
  rw [varsArgs_keys]
  exact h

theorem getV_merged_entity (i : Inputs) :
    getV (mergedConfig i) "entity" = .ok (.vStr i.args.entity) := by
  rw [getV, merged_find_entity]

theorem getV_merged_model (i : Inputs) :
    getV (mergedConfig i) "model" = .ok (.vStr i.args.model) := by
  rw [getV, merged_find_model]

theorem getV_merged_ver (i : Inputs) :
    getV (mergedConfig i) "ver" = .ok (.vStr i.args.ver) := by
  rw [getV, merged_find_ver]

theorem getV_merged_fast_dev_run (i : Inputs) :
    getV (mergedConfig i) "fast_dev_run" = .ok (.vBool i.args.fast_dev_run) := by
  rw [getV, merged_find_fast_dev_run]

theorem getV_merged_check_val (i : Inputs) :
    getV (mergedConfig i) "check_val_every_n_epoch"
      = .ok (.vInt i.args.check_val_every_n_epoch) := by
  rw [getV, merged_find_check_val]

theorem getV_merged_overfit_batches (i : Inputs) :
    getV (mergedConfig i) "overfit_batches" = .ok (.vInt i.args.overfit_batches) := by
  rw [getV, merged_find_overfit_batches]

theorem getV_merged_log_every_n_steps (i : Inputs) :
    getV (mergedConfig i) "log_every_n_steps" = .ok (.vInt i.args.log_every_n_steps) := by
  rw [getV, merged_find_log_every_n_steps]

/-- Full evaluation of `mainTrain` given the merge facts: the behaviour of a
run as a decision tree over the inputs that are not fixed by the CLI merge. -/
theorem mainTrain_eq (i : Inputs) :
    mainTrain i =
      match Config.find (mergedConfig i) "tokenizer" with
      | none => ([.wandbInit (.vStr i.args.entity)], some (.keyError "tokenizer"))
      | some tokV =>
        match modelDispatch (mergedConfig i) i.tok i.cudaAvailable with
        | .error e =>
            ([.wandbInit (.vStr i.args.entity),
              .fetchTokenizerByName (.vStr i.args.entity) tokV], some e)
        | .ok m =>
          match dataDispatch (mergedConfig i) i.tok with
          | .error e =>
              ([.wandbInit (.vStr i.args.entity),
                .fetchTokenizerByName (.vStr i.args.entity) tokV,
                .constructModel m], some e)
          | .ok d =>
            match Config.find (mergedConfig i) "max_epochs" with
            | none =>
                ([.wandbInit (.vStr i.args.entity),
                  .fetchTokenizerByName (.vStr i.args.entity) tokV,
                  .constructModel m, .constructDataModule d],
                 some (.keyError "max_epochs"))
            | some me =>
              if i.args.fast_dev_run then
                (preTrace (.vStr i.args.entity) tokV m d, none)
              else
                match me.asInt with
                | none =>
                    (preTrace (.vStr i.args.entity) tokV m d,
                     some (.typeError "unsupported operand type for -"))
                | some k =>
                  if i.currentEpoch = k - 1 then
                    (preTrace (.vStr i.args.entity) tokV m d
                       ++ uploadTailEvents (.vStr i.args.model) (.vStr i.args.ver)
                            (mergedConfig i), none)
                  else
                    (preTrace (.vStr i.args.entity) tokV m d, none) := by
  simp only [mainTrain, getV_merged_entity, getV_merged_fast_dev_run,
             getV_merged_check_val, getV_merged_overfit_batches,
             getV_merged_log_every_n_steps, getV_merged_model, getV_merged_ver]
  rcases htok : Config.find (mergedConfig i) "tokenizer" with _ | tokV
  · simp only [getV, htok]
  · simp only [getV, htok]
    rcases hmd : modelDispatch (mergedConfig i) i.tok i.cudaAvailable with e | m
    · rfl
    rcases hdd : dataDispatch (mergedConfig i) i.tok with e | d
    · rfl
    rcases hme : Config.find (mergedConfig i) "max_epochs" with _ | me
    · rfl
    have hgate : uploadGate (mergedConfig i) i.currentEpoch =
        (if i.args.fast_dev_run then Except.ok false
         else match me.asInt with
              | none => Except.error (.typeError "unsupported operand type for -")
              | some k => Except.ok (decide (i.currentEpoch = k - 1))) := by
      simp only [uploadGate, getV_merged_fast_dev_run, getV, merged_find_fast_dev_run,
                 hme, Value.truthy, bind, Except.bind]
      rcases i.args.fast_dev_run with _ | _
      · rcases me.asInt with _ | k <;> simp [pure, Except.pure]
      · simp [pure, Except.pure]
    rcases hfd : i.args.fast_dev_run with _ | _
    · simp only [hgate, hfd, if_neg Bool.false_ne_true]
      rcases hai : me.asInt with _ | k
      · simp [preTrace]
      · by_cases hce : i.currentEpoch = k - 1
        · simp [hce, preTrace, uploadTailEvents]
        · simp [hce, preTrace]
    · simp only [hgate, hfd, if_pos rfl]
      simp [preTrace]

/-! ### Characterisation of the two dispatches -/

theorem modelDispatch_torch_eq (c : Config) (tok : Tokenizer) (cuda : Bool)
    (hs fs ml hd dp dr lr : Value)
    (hm : c.find "model" = some (.vStr TransformerTorch.name))
    (h1 : c.find "hidden_size" = some hs)
    (h2 : c.find "ffn_size" = some fs)
    (h3 : c.find "max_length" = some ml)
    (h4 : c.find "heads" = some hd)
    (h5 : c.find "depth" = some dp)
    (h6 : c.find "dropout" = some dr)
    (h7 : c.find "lr" = some lr) :
    modelDispatch c tok cuda
      = .ok (.torch ⟨hs, fs, tok.vocab_size, ml, tok.pad_token_id, hd, dp, dr, lr,
                     if cuda then "cuda" else "cpu"⟩) := by
  simp [modelDispatch, getV, hm, h1, h2, h3, h4, h5, h6, h7,
        bind, Except.bind, pure, Except.pure]

theorem modelDispatch_scratch_eq (c : Config) (tok : Tokenizer) (cuda : Bool)
    (hs fs ml hd dp dr lr : Value)
    (hm : c.find "model" = some (.vStr TransformerScratch.name))
    (h1 : c.find "hidden_size" = some hs)
    (h2 : c.find "ffn_size" = some fs)
    (h3 : c.find "max_length" = some ml)
    (h4 : c.find "heads" = some hd)
    (h5 : c.find "depth" = some dp)
    (h6 : c.find "dropout" = some dr)
    (h7 : c.find "lr" = some lr) :
    modelDispatch c tok cuda
      = .ok (.scratch ⟨hs, fs, tok.vocab_size, ml, tok.pad_token_id, hd, dp, dr, lr⟩) := by
  have hne : Value.vStr TransformerScratch.name ≠ Value.vStr TransformerTorch.name := by
    decide
  simp [modelDispatch, getV, hm, hne, h1, h2, h3, h4, h5, h6, h7,
        bind, Except.bind, pure, Except.pure]

theorem modelDispatch_invalid (c : Config) (tok : Tokenizer) (cuda : Bool)
    (mv : Value)
    (hm : c.find "model" = some mv)
    (hn1 : mv ≠ .vStr TransformerTorch.name)
    (hn2 : mv ≠ .vStr TransformerScratch.name) :
    modelDispatch c tok cuda = .error (.valueError ("Invalid model: " ++ mv.pyStr)) := by
  simp [modelDispatch, getV, hm, hn1, hn2, bind, Except.bind]

theorem modelDispatch_ok_cases (c : Config) (tok : Tokenizer) (cuda : Bool) (m : Model)
    (h : modelDispatch c tok cuda = .ok m) :
    ∃ hs fs ml hd dp dr lr,
      c.find "hidden_size" = some hs ∧ c.find "ffn_size" = some fs ∧
      c.find "max_length" = some ml ∧ c.find "heads" = some hd ∧
      c.find "depth" = some dp ∧ c.find "dropout" = some dr ∧ c.find "lr" = some lr ∧
      ((c.find "model" = some (.vStr TransformerTorch.name) ∧
          m = .torch ⟨hs, fs, tok.vocab_size, ml, tok.pad_token_id, hd, dp, dr, lr,
                      if cuda then "cuda" else "cpu"⟩) ∨
       (c.find "model" = some (.vStr TransformerScratch.name) ∧
          m = .scratch ⟨hs, fs, tok.vocab_size, ml, tok.pad_token_id, hd, dp, dr, lr⟩)) := by
  unfold modelDispatch getV at h
  rcases hm : c.find "model" with _ | mv
  · simp [hm, bind, Except.bind] at h
  simp only [hm, bind, Except.bind] at h
  by_cases hb1 : mv = Value.vStr TransformerTorch.name
  · subst hb1
    rw [if_pos rfl] at h
    rcases hf1 : c.find "hidden_size" with _ | hs
    · simp [hf1] at h
    rcases hf2 : c.find "ffn_size" with _ | fs
    · simp [hf1, hf2] at h
    rcases hf3 : c.find "max_length" with _ | ml
    · simp [hf1, hf2, hf3] at h
    rcases hf4 : c.find "heads" with _ | hd
    · simp [hf1, hf2, hf3, hf4] at h
    rcases hf5 : c.find "depth" with _ | dp
    · simp [hf1, hf2, hf3, hf4, hf5] at h
    rcases hf6 : c.find "dropout" with _ | dr
    · simp [hf1, hf2, hf3, hf4, hf5, hf6] at h
    rcases hf7 : c.find "lr" with _ | lr
    · simp [hf1, hf2, hf3, hf4, hf5, hf6, hf7] at h
    simp only [hf1, hf2, hf3, hf4, hf5, hf6, hf7, pure, Except.pure] at h
    injection h with h'
    exact ⟨hs, fs, ml, hd, dp, dr, lr, rfl, rfl, rfl, rfl, rfl, rfl, rfl,
           Or.inl ⟨rfl, h'.symm⟩⟩
  · rw [if_neg hb1] at h
    by_cases hb2 : mv = Value.vStr TransformerScratch.name
    · subst hb2
      rw [if_pos rfl] at h
      rcases hf1 : c.find "hidden_size" with _ | hs
      · simp [hf1] at h
      rcases hf2 : c.find "ffn_size" with _ | fs
      · simp [hf1, hf2] at h
      rcases hf3 : c.find "max_length" with _ | ml
      · simp [hf1, hf2, hf3] at h
      rcases hf4 : c.find "heads" with _ | hd
      · simp [hf1, hf2, hf3, hf4] at h
      rcases hf5 : c.find "depth" with _ | dp
      · simp [hf1, hf2, hf3, hf4, hf5] at h
      rcases hf6 : c.find "dropout" with _ | dr
      · simp [hf1, hf2, hf3, hf4, hf5, hf6] at h
      rcases hf7 : c.find "lr" with _ | lr
      · simp [hf1, hf2, hf3, hf4, hf5, hf6, hf7] at h
      simp only [hf1, hf2, hf3, hf4, hf5, hf6, hf7, pure, Except.pure] at h
      injection h with h'
      exact ⟨hs, fs, ml, hd, dp, dr, lr, rfl, rfl, rfl, rfl, rfl, rfl, rfl,
             Or.inr ⟨rfl, h'.symm⟩⟩
    · rw [if_neg hb2] at h
      exact absurd h (by simp)

theorem dataDispatch_kor2eng_eq (c : Config) (tok : Tokenizer)
    (hd : c.find "data" = some (.vStr Kor2EngDataModule.name)) :
    dataDispatch c tok = .ok (.kor2eng c tok) := by
  simp [dataDispatch, getV, hd, bind, Except.bind, pure, Except.pure]

theorem dataDispatch_kor2engSmall_eq (c : Config) (tok : Tokenizer)
    (hd : c.find "data" = some (.vStr Kor2EngSmallDataModule.name)) :
    dataDispatch c tok = .ok (.kor2engSmall c tok) := by
  have hne : Value.vStr Kor2EngSmallDataModule.name ≠ Value.vStr Kor2EngDataModule.name := by
    decide
  simp [dataDispatch, getV, hd, hne, bind, Except.bind, pure, Except.pure]

theorem dataDispatch_invalid (c : Config) (tok : Tokenizer) (dv : Value)
    (hd : c.find "data" = some dv)
    (hn1 : dv ≠ .vStr Kor2EngDataModule.name)
    (hn2 : dv ≠ .vStr Kor2EngSmallDataModule.name) :
    dataDispatch c tok = .error (.valueError ("Invalid data: " ++ dv.pyStr)) := by
  simp [dataDispatch, getV, hd, hn1, hn2, bind, Except.bind]

theorem dataDispatch_ok_cases (c : Config) (tok : Tokenizer) (d : DataModule)
    (h : dataDispatch c tok = .ok d) :
    (c.find "data" = some (.vStr Kor2EngDataModule.name) ∧ d = .kor2eng c tok) ∨
    (c.find "data" = some (.vStr Kor2EngSmallDataModule.name) ∧ d = .kor2engSmall c tok) := by
  unfold dataDispatch getV at h
  rcases hd : c.find "data" with _ | dv
  · simp [hd, bind, Except.bind] at h
  simp only [hd, bind, Except.bind] at h
  by_cases hb1 : dv = Value.vStr Kor2EngDataModule.name
  · subst hb1
    rw [if_pos rfl] at h
    simp only [pure, Except.pure] at h
    injection h with h'
    exact Or.inl ⟨rfl, h'.symm⟩
  · rw [if_neg hb1] at h
    by_cases hb2 : dv = Value.vStr Kor2EngSmallDataModule.name
    · subst hb2
      rw [if_pos rfl] at h
      simp only [pure, Except.pure] at h
      injection h with h'
      exact Or.inr ⟨rfl, h'.symm⟩
    · rw [if_neg hb2] at h
      exact absurd h (by simp)

theorem isUploadEvent_false_of_mem_preTrace (e t : Value) (m : Model) (d : DataModule)
    (ev : Event) (h : ev ∈ preTrace e t m d) : ev.isUploadEvent = false := by
  simp only [preTrace, List.mem_cons, List.not_mem_nil, or_false] at h
  rcases h with rfl | rfl | rfl | rfl | rfl <;> rfl

/-- An upload-sequence event appears in a run's trace only when
`fast_dev_run` is falsy and the trainer outcome matches
`config['max_epochs'] - 1`. -/
theorem mem_mainTrain_upload (i : Inputs) (ev : Event)
    (hmem : ev ∈ (mainTrain i).1) (hup : ev.isUploadEvent = true) :
    i.args.fast_dev_run = false ∧
    ∃ me k, Config.find (mergedConfig i) "max_epochs" = some me ∧
      me.asInt = some k ∧ i.currentEpoch = k - 1 := by
  rw [mainTrain_eq] at hmem
  rcases htok : Config.find (mergedConfig i) "tokenizer" with _ | tokV <;>
    simp only [htok] at hmem
  · simp only [List.mem_cons, List.not_mem_nil, or_false] at hmem
    subst hmem
    simp [Event.isUploadEvent] at hup
  rcases hmd : modelDispatch (mergedConfig i) i.tok i.cudaAvailable with e | m <;>
    simp only [hmd] at hmem
  · simp only [List.mem_cons, List.not_mem_nil, or_false] at hmem
    rcases hmem with rfl | rfl <;> simp [Event.isUploadEvent] at hup
  rcases hdd : dataDispatch (mergedConfig i) i.tok with e | d <;>
    simp only [hdd] at hmem
  · simp only [List.mem_cons, List.not_mem_nil, or_false] at hmem
    rcases hmem with rfl | rfl | rfl <;> simp [Event.isUploadEvent] at hup
  rcases hme : Config.find (mergedConfig i) "max_epochs" with _ | me <;>
    simp only [hme] at hmem
  · simp only [List.mem_cons, List.not_mem_nil, or_false] at hmem
    rcases hmem with rfl | rfl | rfl | rfl <;> simp [Event.isUploadEvent] at hup
  rcases hfd : i.args.fast_dev_run with _ | _ <;> simp only [hfd] at hmem
  case false =>
    simp only [Bool.false_eq_true, if_false] at hmem
    rcases hai : me.asInt with _ | k <;> simp only [hai] at hmem
    · have := isUploadEvent_false_of_mem_preTrace _ _ _ _ _ hmem
      rw [this] at hup
      exact Bool.noConfusion hup
    by_cases hce : i.currentEpoch = k - 1
    · exact ⟨rfl, me, k, rfl, hai, hce⟩
    · rw [if_neg hce] at hmem
      have := isUploadEvent_false_of_mem_preTrace _ _ _ _ _ hmem
      rw [this] at hup
      exact Bool.noConfusion hup
  case true =>
    simp only [if_true] at hmem
    have := isUploadEvent_false_of_mem_preTrace _ _ _ _ _ hmem
    rw [this] at hup
    exact Bool.noConfusion hup

/-! ### The claims -/

/-- C4: the merged config equals the fetched entry updated with the parsed
CLI arguments: each of the eight CLI keys gets the CLI value (even when the
fetched entry also defines it), and every other key keeps its fetched
value. -/
theorem claim_C4_config_merge (i : Inputs) :
    (mergedConfig i).find "entity" = some (.vStr i.args.entity) ∧
    (mergedConfig i).find "model" = some (.vStr i.args.model) ∧
    (mergedConfig i).find "ver" = some (.vStr i.args.ver) ∧
    (mergedConfig i).find "num_workers" = some (.vInt i.args.num_workers) ∧
    (mergedConfig i).find "log_every_n_steps" = some (.vInt i.args.log_every_n_steps) ∧
    (mergedConfig i).find "fast_dev_run" = some (.vBool i.args.fast_dev_run) ∧
    (mergedConfig i).find "overfit_batches" = some (.vInt i.args.overfit_batches) ∧
    (mergedConfig i).find "check_val_every_n_epoch"
      = some (.vInt i.args.check_val_every_n_epoch) ∧
    ∀ k, k ∉ cliKeys → (mergedConfig i).find k = Config.find i.fetched k :=
  ⟨merged_find_entity i, merged_find_model i, merged_find_ver i,
   merged_find_num_workers i, merged_find_log_every_n_steps i,
   merged_find_fast_dev_run i, merged_find_overfit_batches i,
   merged_find_check_val i, merged_find_of_not_cli i⟩

/-- Witness for C4 at a concrete run: the CLI `fast_dev_run = false`
overrides the fetched `fast_dev_run = true`, and the fetched `max_epochs`
survives the merge unchanged. -/
theorem claim_C4_config_merge_witness :
    (mergedConfig iEx).find "fast_dev_run" = some (.vBool false) ∧
    (mergedConfig iEx).find "max_epochs" = Config.find fetchedEx "max_epochs" :=
  ⟨(claim_C4_config_merge iEx).2.2.2.2.2.1,
   (claim_C4_config_merge iEx).2.2.2.2.2.2.2.2 "max_epochs" (by decide)⟩

/-- C7: the script is deterministic glue code: two runs with the same CLI
arguments, fetched config, tokenizer, CUDA availability and trainer
outcome have identical behaviour (same trace of constructions and the same
upload-or-not decision, same exception if any). -/
theorem claim_C7_deterministic (i j : Inputs)
    (h1 : i.args = j.args) (h2 : i.fetched = j.fetched) (h3 : i.tok = j.tok)
    (h4 : i.cudaAvailable = j.cudaAvailable) (h5 : i.currentEpoch = j.currentEpoch) :
    mainTrain i = mainTrain j := by
  obtain ⟨a, f, t, cu, ce⟩ := i
  obtain ⟨a', f', t', cu', ce'⟩ := j
  simp only at h1 h2 h3 h4 h5
  subst h1
  subst h2
  subst h3
  subst h4
  subst h5
  rfl

/-- Witness for C7: two separately constructed runs from the same data. -/
theorem claim_C7_deterministic_witness : mainTrain iEx = mainTrain iEx2 :=
  claim_C7_deterministic iEx iEx2 rfl rfl rfl rfl rfl

/-- C2: the model dispatch is an if/elif/else over `config['model']`:
equal to `TransformerTorch.name` constructs `TransformerTorch` with
(hidden_size, ffn_size, vocab size, max_length, pad_token_id, heads,
depth, dropout, lr, device); equal to `TransformerScratch.name` constructs
`TransformerScratch` with the same arguments minus the device; anything
else raises `ValueError`. -/
theorem claim_C2_model_dispatch (c : Config) (tok : Tokenizer) (cuda : Bool)
    (hs fs ml hd dp dr lr : Value)
    (h1 : c.find "hidden_size" = some hs)
    (h2 : c.find "ffn_size" = some fs)
    (h3 : c.find "max_length" = some ml)
    (h4 : c.find "heads" = some hd)
    (h5 : c.find "depth" = some dp)
    (h6 : c.find "dropout" = some dr)
    (h7 : c.find "lr" = some lr) :
    (c.find "model" = some (.vStr TransformerTorch.name) →
       modelDispatch c tok cuda
         = .ok (.torch ⟨hs, fs, tok.vocab_size, ml, tok.pad_token_id, hd, dp, dr, lr,
                        if cuda then "cuda" else "cpu"⟩)) ∧
    (c.find "model" = some (.vStr TransformerScratch.name) →
       modelDispatch c tok cuda
         = .ok (.scratch ⟨hs, fs, tok.vocab_size, ml, tok.pad_token_id, hd, dp, dr, lr⟩)) ∧
    (∀ mv, c.find "model" = some mv →
       mv ≠ .vStr TransformerTorch.name → mv ≠ .vStr TransformerScratch.name →
       modelDispatch c tok cuda = .error (.valueError ("Invalid model: " ++ mv.pyStr))) :=
  ⟨fun hm => modelDispatch_torch_eq c tok cuda hs fs ml hd dp dr lr hm h1 h2 h3 h4 h5 h6 h7,
   fun hm => modelDispatch_scratch_eq c tok cuda hs fs ml hd dp dr lr hm h1 h2 h3 h4 h5 h6 h7,
   fun mv hm hn1 hn2 => modelDispatch_invalid c tok cuda mv hm hn1 hn2⟩

/-- Witness for C2 on a concrete config selecting the torch model with
CUDA available. -/
theorem claim_C2_model_dispatch_witness :
    modelDispatch cDispatchEx tokEx true
      = .ok (.torch ⟨.vInt 8, .vInt 16, 100, .vInt 10, 0, .vInt 2, .vInt 1, .vInt 0,
                     .vInt 1, "cuda"⟩) :=
  (claim_C2_model_dispatch cDispatchEx tokEx true
      (.vInt 8) (.vInt 16) (.vInt 10) (.vInt 2) (.vInt 1) (.vInt 0) (.vInt 1)
      (by decide) (by decide) (by decide) (by decide) (by decide) (by decide)
      (by decide)).1 (by decide)

/-- C3: the data-module dispatch raises `ValueError` exactly when
`config['data']` matches neither data-module name; otherwise it constructs
the matching module, passing it the merged config and the fetched
tokenizer. -/
theorem claim_C3_data_dispatch (c : Config) (tok : Tokenizer) (dv : Value)
    (h : c.find "data" = some dv) :
    ((∃ msg, dataDispatch c tok = .error (.valueError msg)) ↔
       (dv ≠ .vStr Kor2EngDataModule.name ∧ dv ≠ .vStr Kor2EngSmallDataModule.name)) ∧
    (dv = .vStr Kor2EngDataModule.name → dataDispatch c tok = .ok (.kor2eng c tok)) ∧
    (dv = .vStr Kor2EngSmallDataModule.name →
       dataDispatch c tok = .ok (.kor2engSmall c tok)) := by
  refine ⟨⟨?_, ?_⟩, ?_, ?_⟩
  · rintro ⟨msg, hmsg⟩
    by_cases hb1 : dv = .vStr Kor2EngDataModule.name
    · rw [dataDispatch_kor2eng_eq c tok (hb1 ▸ h)] at hmsg
      exact absurd hmsg (by simp)
    by_cases hb2 : dv = .vStr Kor2EngSmallDataModule.name
    · rw [dataDispatch_kor2engSmall_eq c tok (hb2 ▸ h)] at hmsg
      exact absurd hmsg (by simp)
    exact ⟨hb1, hb2⟩
  · rintro ⟨hb1, hb2⟩
    exact ⟨_, dataDispatch_invalid c tok dv h hb1 hb2⟩
  · intro hb1
    exact dataDispatch_kor2eng_eq c tok (hb1 ▸ h)
  · intro hb2
    exact dataDispatch_kor2engSmall_eq c tok (hb2 ▸ h)

/-- Witness for C3 on a concrete config whose `data` entry names
`Kor2EngDataModule`. -/
theorem claim_C3_data_dispatch_witness :
    dataDispatch cDispatchEx tokEx = .ok (.kor2eng cDispatchEx tokEx) :=
  (claim_C3_data_dispatch cDispatchEx tokEx (.vStr Kor2EngDataModule.name)
      (by decide)).2.1 rfl

/-- C9: a device argument exists only on the `TransformerTorch` branch and
is `cuda` when CUDA is available, `cpu` otherwise; the
`TransformerScratch` construction takes no device argument, so its result
is independent of CUDA availability. -/
theorem claim_C9_device_argument (c : Config) (tok : Tokenizer) (cuda : Bool) :
    (∀ ti, modelDispatch c tok cuda = .ok (.torch ti) →
       ti.device = if cuda then "cuda" else "cpu") ∧
    (c.find "model" = some (.vStr TransformerScratch.name) →
       ∀ cu1 cu2 : Bool, modelDispatch c tok cu1 = modelDispatch c tok cu2) := by
  constructor
  · intro ti hti
    obtain ⟨hs, fs, ml, hd, dp, dr, lr, _, _, _, _, _, _, _, hcase⟩ :=
      modelDispatch_ok_cases c tok cuda (.torch ti) hti
    rcases hcase with ⟨_, hm⟩ | ⟨_, hm⟩
    · injection hm with hm'
      rw [hm']
    · exact absurd hm (by simp)
  · intro hm cu1 cu2
    have hne : Value.vStr TransformerScratch.name ≠ Value.vStr TransformerTorch.name := by
      decide
    simp [modelDispatch, getV, hm, hne, bind, Except.bind]

/-- Witness for C9: the concrete torch construction with CUDA available
carries device `cuda`. -/
theorem claim_C9_device_argument_witness :
    TorchInit.device ⟨.vInt 8, .vInt 16, 100, .vInt 10, 0, .vInt 2, .vInt 1, .vInt 0,
                      .vInt 1, "cuda"⟩ = if true then "cuda" else "cpu" :=
  (claim_C9_device_argument cDispatchEx tokEx true).1 _ (by decide)

theorem modelDispatch_ok_tok_fields (c : Config) (tok : Tokenizer) (cuda : Bool)
    (m : Model) (h : modelDispatch c tok cuda = .ok m) :
    m.vocabSizeArg = tok.vocab_size ∧ m.padArg = tok.pad_token_id := by
  obtain ⟨hs, fs, ml, hd, dp, dr, lr, _, _, _, _, _, _, _, hcase⟩ :=
    modelDispatch_ok_cases c tok cuda m h
  rcases hcase with ⟨_, rfl⟩ | ⟨_, rfl⟩ <;> exact ⟨rfl, rfl⟩

theorem dataDispatch_ok_fields (c : Config) (tok : Tokenizer) (d : DataModule)
    (h : dataDispatch c tok = .ok d) :
    d.tokenizerArg = tok ∧ d.configArg = c := by
  rcases dataDispatch_ok_cases c tok d h with ⟨_, rfl⟩ | ⟨_, rfl⟩ <;> exact ⟨rfl, rfl⟩

/-- C8: with `fast_dev_run` true in the merged config, the run never saves
a checkpoint, never creates or logs an artifact, and never removes a file,
whatever `trainer.current_epoch` and `config['max_epochs']` are. -/
theorem claim_C8_fast_dev_no_upload (i : Inputs)
    (hfd : i.args.fast_dev_run = true) :
    (∀ p, Event.saveCheckpoint p ∉ (mainTrain i).1) ∧
    (∀ nm ty md, Event.createArtifact nm ty md ∉ (mainTrain i).1) ∧
    (∀ al, Event.logArtifactWithAliases al ∉ (mainTrain i).1) ∧
    (∀ p, Event.removeFile p ∉ (mainTrain i).1) := by
  refine ⟨fun p hp => ?_, fun nm ty md hp => ?_, fun al hp => ?_, fun p hp => ?_⟩ <;>
  · have h := mem_mainTrain_upload i _ hp rfl
    rw [hfd] at h
    exact Bool.noConfusion h.1

/-- Witness for C8 at the concrete fast-dev run. -/
theorem claim_C8_fast_dev_no_upload_witness :
    Event.saveCheckpoint ckpt_path ∉ (mainTrain iFastEx).1 ∧
    Event.removeFile ckpt_path ∉ (mainTrain iFastEx).1 :=
  ⟨(claim_C8_fast_dev_no_upload iFastEx rfl).1 ckpt_path,
   (claim_C8_fast_dev_no_upload iFastEx rfl).2.2.2 ckpt_path⟩

/-- C1: in a run that completes without an exception, the checkpoint
save/upload sequence runs exactly when the merged `fast_dev_run` is false
and `trainer.current_epoch` equals `config['max_epochs'] - 1`; when either
condition fails no checkpoint is saved and no artifact is logged. -/
theorem claim_C1_upload_gate (i : Inputs) (tr : List Event) (me : Int)
    (hme : Config.find (mergedConfig i) "max_epochs" = some (.vInt me))
    (hok : mainTrain i = (tr, none)) :
    ((∃ p, Event.saveCheckpoint p ∈ tr) ∨ (∃ al, Event.logArtifactWithAliases al ∈ tr))
      ↔ (Config.find (mergedConfig i) "fast_dev_run" = some (.vBool false)
          ∧ i.currentEpoch = me - 1) := by
  have hfdm := merged_find_fast_dev_run i
  constructor
  · have extract : ∀ ev : Event, ev ∈ tr → ev.isUploadEvent = true →
        Config.find (mergedConfig i) "fast_dev_run" = some (.vBool false)
          ∧ i.currentEpoch = me - 1 := by
      intro ev hev hup
      obtain ⟨hfd, me', k, hme', hai, hce⟩ :=
        mem_mainTrain_upload i ev (by rw [hok]; exact hev) hup
      rw [hme] at hme'
      injection hme' with h'
      subst h'
      simp only [Value.asInt, Option.some.injEq] at hai
      subst hai
      exact ⟨by rw [hfdm, hfd], hce⟩
    rintro (⟨p, hp⟩ | ⟨al, hal⟩)
    · exact extract _ hp rfl
    · exact extract _ hal rfl
  · rintro ⟨hfdv, hce⟩
    rw [hfdm] at hfdv
    injection hfdv with h'
    injection h' with hfd
    rw [mainTrain_eq] at hok
    rcases htok : Config.find (mergedConfig i) "tokenizer" with _ | tokV <;>
      simp only [htok] at hok
    · simp [Prod.ext_iff] at hok
    rcases hmd : modelDispatch (mergedConfig i) i.tok i.cudaAvailable with e | m <;>
      simp only [hmd] at hok
    · simp [Prod.ext_iff] at hok
    rcases hdd : dataDispatch (mergedConfig i) i.tok with e | d <;>
      simp only [hdd] at hok
    · simp [Prod.ext_iff] at hok
    simp only [hme, hfd, Bool.false_eq_true, if_false, Value.asInt] at hok
    rw [if_pos hce] at hok
    obtain ⟨htr, _⟩ := Prod.mk.inj hok
    subst htr
    exact Or.inl ⟨ckpt_path, by simp [preTrace, uploadTailEvents]⟩

/-- Witness for C1 at the concrete completed run `iEx`
(`fast_dev_run = false`, `max_epochs = 3`, final `current_epoch = 2`). -/
theorem claim_C1_upload_gate_witness :
    ((∃ p, Event.saveCheckpoint p ∈ (mainTrain iEx).1)
        ∨ (∃ al, Event.logArtifactWithAliases al ∈ (mainTrain iEx).1))
      ↔ (Config.find (mergedConfig iEx) "fast_dev_run" = some (.vBool false)
          ∧ iEx.currentEpoch = (3 : Int) - 1) :=
  claim_C1_upload_gate iEx (mainTrain iEx).1 3 (by decide) rfl

/-- C5: whenever the gate holds in a completed run, the trace ends with, in
order: checkpoint save to `ROOT_DIR/transformer.ckpt`, creation of an
artifact named `config['model']` of type `model` with the merged config as
metadata, adding the checkpoint file, logging the artifact with aliases
`['latest', config['ver']]`, and removing the checkpoint file. -/
theorem claim_C5_upload_sequence (i : Inputs) (tr : List Event) (me : Int)
    (hme : Config.find (mergedConfig i) "max_epochs" = some (.vInt me))
    (hfd : i.args.fast_dev_run = false)
    (hce : i.currentEpoch = me - 1)
    (hok : mainTrain i = (tr, none)) :
    ∃ pre, tr = pre ++
      [.saveCheckpoint (ROOT_DIR ++ "/" ++ "transformer.ckpt"),
       .createArtifact (.vStr i.args.model) "model" (mergedConfig i),
       .addFile ckpt_path,
       .logArtifactWithAliases [.vStr "latest", .vStr i.args.ver],
       .removeFile ckpt_path] := by
  rw [mainTrain_eq] at hok
  rcases htok : Config.find (mergedConfig i) "tokenizer" with _ | tokV <;>
    simp only [htok] at hok
  · simp [Prod.ext_iff] at hok
  rcases hmd : modelDispatch (mergedConfig i) i.tok i.cudaAvailable with e | m <;>
    simp only [hmd] at hok
  · simp [Prod.ext_iff] at hok
  rcases hdd : dataDispatch (mergedConfig i) i.tok with e | d <;>
    simp only [hdd] at hok
  · simp [Prod.ext_iff] at hok
  simp only [hme, hfd, Bool.false_eq_true, if_false, Value.asInt] at hok
  rw [if_pos hce] at hok
  obtain ⟨htr, _⟩ := Prod.mk.inj hok
  subst htr
  exact ⟨preTrace (.vStr i.args.entity) tokV m d, by simp [uploadTailEvents, ckpt_path]⟩

/-- Witness for C5 at the concrete completed run `iEx`. -/
theorem claim_C5_upload_sequence_witness :
    ∃ pre, (mainTrain iEx).1 = pre ++
      [.saveCheckpoint (ROOT_DIR ++ "/" ++ "transformer.ckpt"),
       .createArtifact (.vStr iEx.args.model) "model" (mergedConfig iEx),
       .addFile ckpt_path,
       .logArtifactWithAliases [.vStr "latest", .vStr iEx.args.ver],
       .removeFile ckpt_path] :=
  claim_C5_upload_sequence iEx (mainTrain iEx).1 3 (by decide) rfl (by decide) rfl

/-- C6: in every run that reaches training, the tokenizer fetch precedes
the model construction, the model and the data module are built from that
same tokenizer's data (vocab size and pad token id for the model, the
tokenizer itself for the data module), and `trainer.fit` is called with
exactly the constructed model and data module. -/
theorem claim_C6_tokenizer_wiring (i : Inputs) (tr : List Event)
    (hok : mainTrain i = (tr, none)) :
    ∃ tokV m d,
      Config.find (mergedConfig i) "tokenizer" = some tokV ∧
      tr.take 5 = [.wandbInit (.vStr i.args.entity),
                   .fetchTokenizerByName (.vStr i.args.entity) tokV,
                   .constructModel m, .constructDataModule d,
                   .trainerFit m d] ∧
      m.vocabSizeArg = i.tok.vocab_size ∧ m.padArg = i.tok.pad_token_id ∧
      d.tokenizerArg = i.tok := by
  rw [mainTrain_eq] at hok
  rcases htok : Config.find (mergedConfig i) "tokenizer" with _ | tokV <;>
    simp only [htok] at hok
  · simp [Prod.ext_iff] at hok
  rcases hmd : modelDispatch (mergedConfig i) i.tok i.cudaAvailable with e | m <;>
    simp only [hmd] at hok
  · simp [Prod.ext_iff] at hok
  rcases hdd : dataDispatch (mergedConfig i) i.tok with e | d <;>
    simp only [hdd] at hok
  · simp [Prod.ext_iff] at hok
  obtain ⟨hvoc, hpad⟩ := modelDispatch_ok_tok_fields _ _ _ _ hmd
  obtain ⟨hdtok, _⟩ := dataDispatch_ok_fields _ _ _ hdd
  refine ⟨tokV, m, d, rfl, ?_, hvoc, hpad, hdtok⟩
  rcases hmem : Config.find (mergedConfig i) "max_epochs" with _ | me <;>
    simp only [hmem] at hok
  · simp [Prod.ext_iff] at hok
  rcases hfd : i.args.fast_dev_run with _ | _ <;> simp only [hfd] at hok
  case false =>
    simp only [Bool.false_eq_true, if_false] at hok
    rcases hai : me.asInt with _ | k <;> simp only [hai] at hok
    · simp [Prod.ext_iff] at hok
    by_cases hce : i.currentEpoch = k - 1
    · rw [if_pos hce] at hok
      obtain ⟨htr, _⟩ := Prod.mk.inj hok
      subst htr
      simp [preTrace, uploadTailEvents]
    · rw [if_neg hce] at hok
      obtain ⟨htr, _⟩ := Prod.mk.inj hok
      subst htr
      simp [preTrace]
  case true =>
    simp only [if_true] at hok
    obtain ⟨htr, _⟩ := Prod.mk.inj hok
    subst htr
    simp [preTrace]

/-- Witness for C6 at the concrete completed run `iEx`. -/
theorem claim_C6_tokenizer_wiring_witness :
    ∃ tokV m d,
      Config.find (mergedConfig iEx) "tokenizer" = some tokV ∧
      (mainTrain iEx).1.take 5 = [.wandbInit (.vStr iEx.args.entity),
                   .fetchTokenizerByName (.vStr iEx.args.entity) tokV,
                   .constructModel m, .constructDataModule d,
                   .trainerFit m d] ∧
      m.vocabSizeArg = iEx.tok.vocab_size ∧ m.padArg = iEx.tok.pad_token_id ∧
      d.tokenizerArg = iEx.tok :=
  claim_C6_tokenizer_wiring iEx (mainTrain iEx).1 rfl

/-- C10: when either dispatch raises `ValueError` (the only source of
`ValueError` in the script), the failure is atomic for the rest of the
pipeline: `trainer.fit` is never called, no checkpoint is saved and no
artifact is logged in that run. -/
theorem claim_C10_value_error_atomic (i : Inputs) (tr : List Event) (msg : String)
    (h : mainTrain i = (tr, some (.valueError msg))) :
    (∀ m d, Event.trainerFit m d ∉ tr) ∧
    (∀ p, Event.saveCheckpoint p ∉ tr) ∧
    (∀ al, Event.logArtifactWithAliases al ∉ tr) := by
  rw [mainTrain_eq] at h
  rcases htok : Config.find (mergedConfig i) "tokenizer" with _ | tokV <;>
    simp only [htok] at h
  · simp [Prod.ext_iff] at h
  rcases hmd : modelDispatch (mergedConfig i) i.tok i.cudaAvailable with e | m <;>
    simp only [hmd] at h
  · obtain ⟨htr, _⟩ := Prod.mk.inj h
    subst htr
    refine ⟨fun m d => ?_, fun p => ?_, fun al => ?_⟩ <;> simp
  rcases hdd : dataDispatch (mergedConfig i) i.tok with e | d <;>
    simp only [hdd] at h
  · obtain ⟨htr, _⟩ := Prod.mk.inj h
    subst htr
    refine ⟨fun m d => ?_, fun p => ?_, fun al => ?_⟩ <;> simp
  rcases hmem : Config.find (mergedConfig i) "max_epochs" with _ | me <;>
    simp only [hmem] at h
  · simp [Prod.ext_iff] at h
  rcases hfd : i.args.fast_dev_run with _ | _ <;> simp only [hfd] at h
  case false =>
    simp only [Bool.false_eq_true, if_false] at h
    rcases hai : me.asInt with _ | k <;> simp only [hai] at h
    · simp [Prod.ext_iff] at h
    by_cases hce : i.currentEpoch = k - 1
    · rw [if_pos hce] at h
      simp [Prod.ext_iff] at h
    · rw [if_neg hce] at h
      simp [Prod.ext_iff] at h
  case true =>
    simp only [if_true] at h
    simp [Prod.ext_iff] at h

/-- Witness for C10 at the concrete run whose model name is unrecognised. -/
theorem claim_C10_value_error_atomic_witness :
    (∀ m d, Event.trainerFit m d ∉ (mainTrain iBadEx).1) ∧
    (∀ p, Event.saveCheckpoint p ∉ (mainTrain iBadEx).1) ∧
    (∀ al, Event.logArtifactWithAliases al ∉ (mainTrain iBadEx).1) :=
  claim_C10_value_error_atomic iBadEx (mainTrain iBadEx).1
    "Invalid model: no_such_model" (by decide)
